import Mathlib

/-
Formal model of the Copter Control attitude estimator
(src/flight/Modules/Attitude/attitude.c).

Embedding conventions:
* C `float`/`double` values are embedded as exact rationals (ℚ).  Rounding of
  IEEE arithmetic is abstracted away; all arithmetic identities below are
  exact-arithmetic statements about the algorithm.
* `sqrtf` is not rational-valued, so every function that calls it takes an
  explicit `sqrt : ℚ → ℚ` argument standing for the C library square root.
  Theorems that depend on actual properties of the square root state them as
  pointwise hypotheses (e.g. `sqrt s * sqrt s = s`), which concrete witnesses
  discharge at perfect-square inputs.
* FreeRTOS tick counts (`portTickType`, a `uint32_t`) are embedded as ℕ and
  reduced mod 2^32 exactly where the C code's unsigned arithmetic does.
* C `int`/`int16_t`/`int32_t` quantities are embedded as ℤ; C integer division
  truncates toward zero, which is `Int.tdiv`; division by zero is undefined
  behaviour in C and is modelled by `Option` (`none` = fault).
* The UAVObject get/set calls (GyrosSet, AccelsSet, AttitudeActualSet,
  AttitudeSettingsSet) publish data to the object bus; published values are
  returned as extra components of each function's result.
* The simulation-only paths (GyrosReadOnly / AccelsReadOnly /
  AttitudeActualReadOnly) and the watchdog/task plumbing are outside the
  estimator proper and are not modelled.  The Euler-angle conversion
  (Quaternion2RPY) feeds only the published telemetry object and no claim
  refers to it, so the published attitude is modelled as the quaternion.
-/

/-- A 3-vector of floats (gyro / accel / bias-integral values). -/
structure V3 where
  x : ℚ
  y : ℚ
  z : ℚ
deriving DecidableEq, Repr

/-- A 3-vector of C integers (raw counts, int16 biases, int32 accumulators). -/
structure I3 where
  x : ℤ
  y : ℤ
  z : ℤ
deriving DecidableEq, Repr

/-- A quaternion, stored as in the source: q[0] scalar, q[1..3] vector. -/
structure Quat where
  q0 : ℚ
  q1 : ℚ
  q2 : ℚ
  q3 : ℚ
deriving DecidableEq, Repr

/-- A 3x3 rotation matrix (the global `R` derived from the board rotation). -/
structure M33 where
  r00 : ℚ
  r01 : ℚ
  r02 : ℚ
  r10 : ℚ
  r11 : ℚ
  r12 : ℚ
  r20 : ℚ
  r21 : ℚ
  r22 : ℚ
deriving DecidableEq, Repr

/-- Identity rotation matrix (what `Quaternion2R` yields for quaternion
(1,0,0,0), the branch taken when all board-rotation angles are zero). -/
def M33.id : M33 := ⟨1, 0, 0, 0, 1, 0, 0, 0, 1⟩

/-- State of one 4th-order filter instance (`fourthOrderData` in the source):
the last four inputs and the last four outputs. -/
structure FourthOrderData where
  inputTm1 : ℚ
  inputTm2 : ℚ
  inputTm3 : ℚ
  inputTm4 : ℚ
  outputTm1 : ℚ
  outputTm2 : ℚ
  outputTm3 : ℚ
  outputTm4 : ℚ
deriving DecidableEq, Repr

/-- The all-zero filter state (C zero-initialised statics). -/
def FourthOrderData.zero : FourthOrderData := ⟨0, 0, 0, 0, 0, 0, 0, 0⟩

/-- A bank of three per-axis filter instances (`filterParams_acc`,
`filterParams_grot` are each `fourthOrderData[3]`). -/
structure Bank where
  fx : FourthOrderData
  fy : FourthOrderData
  fz : FourthOrderData
deriving DecidableEq, Repr

/-- Zero-initialised filter bank. -/
def Bank.zero : Bank := ⟨.zero, .zero, .zero⟩

/-- FlightStatus.Armed values. -/
inductive FlightArmed where
  | Disarmed
  | Arming
  | Armed
deriving DecidableEq, Repr

/-- AttitudeSettings.TrimFlight values. -/
inductive TrimFlight where
  | NORMAL
  | START
  | LOAD
deriving DecidableEq, Repr

/-- System alarm state for SYSTEMALARMS_ALARM_ATTITUDE. -/
inductive Alarm where
  | Clear
  | Error
deriving DecidableEq, Repr

/-- The AttitudeSettings UAVObject snapshot delivered to `settingsUpdatedCb`. -/
structure AttitudeSettingsData where
  AccelKp : ℚ
  AccelKi : ℚ
  YawBiasRate : ℚ
  GyroGain : ℚ
  ZeroDuringArming : Bool
  BiasCorrectGyro : Bool
  AccelBias : I3
  GyroBias : I3
  BoardRotation : V3
  TrimFlight : TrimFlight
deriving DecidableEq, Repr

/-- One raw MPU6050 sample pulled from the sensor queue
(`struct pios_mpu6050_data`): raw integer counts. -/
structure RawSample where
  gyro_x : ℤ
  gyro_y : ℤ
  gyro_z : ℤ
  accel_x : ℤ
  accel_y : ℤ
  accel_z : ℤ
  temperature : ℤ
deriving DecidableEq, Repr

/-- The published Accels UAVObject (fields x,y,z,temperature). -/
structure AccelsData where
  x : ℚ
  y : ℚ
  z : ℚ
  temperature : ℚ
deriving DecidableEq, Repr

/-- The published Gyros UAVObject (fields x,y,z,temperature). -/
structure GyrosData where
  x : ℚ
  y : ℚ
  z : ℚ
  temperature : ℚ
deriving DecidableEq, Repr

/-- The module's mutable global state: every file-scope static of attitude.c
that the estimator reads or writes, plus the function-scope statics
(`init` from AttitudeTask, `lastSysTime` from updateAttitude). -/
structure Globals where
  accelKi : ℚ
  accelKp : ℚ
  accel_filter_enabled : Bool
  yawBiasRate : ℚ
  gyroGain : ℚ
  accelbias : I3
  q : Quat
  R : M33
  rotate : Bool
  zero_during_arming : Bool
  bias_correct_gyro : Bool
  gyro_correct_int : V3
  trim_requested : Bool
  trim_accels : I3
  trim_samples : ℤ
  filterParams_acc : Bank
  filterParams_grot : Bank
  init : Bool
  lastSysTime : ℕ
deriving DecidableEq, Repr

/-- Global state at boot: C static initialisers plus `AttitudeInitialize`
(q := identity, gyro_correct_int := 0, R := 0, trim_requested := false;
`init` is the local `uint8_t init = 0` of AttitudeTask and `lastSysTime`
the `static portTickType lastSysTime = 0` of updateAttitude). -/
def initGlobals : Globals where
  accelKi := 0
  accelKp := 0
  accel_filter_enabled := false
  yawBiasRate := 0
  gyroGain := 0.42
  accelbias := ⟨0, 0, 0⟩
  q := ⟨1, 0, 0, 0⟩
  R := ⟨0, 0, 0, 0, 0, 0, 0, 0, 0⟩
  rotate := false
  zero_during_arming := false
  bias_correct_gyro := true
  gyro_correct_int := ⟨0, 0, 0⟩
  trim_requested := false
  trim_accels := ⟨0, 0, 0⟩
  trim_samples := 0
  filterParams_acc := .zero
  filterParams_grot := .zero
  init := false
  lastSysTime := 0

/-- GRAV (9.81f). -/
def GRAV : ℚ := 9.81

/-- ACCEL_SCALE = GRAV * 0.004f. -/
def ACCEL_SCALE : ℚ := GRAV * 0.004

/-- MAX_TRIM_FLIGHT_SAMPLES (declared in the source; never read by it). -/
def MAX_TRIM_FLIGHT_SAMPLES : ℤ := 65535

/-- The C double constant M_PI, exactly: the IEEE-754 double nearest to π. -/
def M_PI : ℚ := 884279719003555 / 281474976710656

/-- portTICK_RATE_MS for the 1 kHz FreeRTOS tick configuration of this target
(1000 Hz tick, so one tick = 1 ms). -/
def portTICK_RATE_MS : ℕ := 1

/-- Filter numerator coefficients (cheby2(4,60,10/200)). -/
def _b0 : ℚ := 0.00098778675104
def _b1 : ℚ := -0.00376234890193
def _b2 : ℚ := 0.00555374469529
def _b3 : ℚ := -0.00376234890193
def _b4 : ℚ := 0.00098778675104

/-- Filter denominator coefficients, applied with negation in the recurrence. -/
def _a1 : ℚ := -3.87812973499889
def _a2 : ℚ := 5.64176257281588
def _a3 : ℚ := -3.64887595541910
def _a4 : ℚ := 0.88524773799562

/-- computeFourthOrder: one step of the 4th-order IIR recurrence.  Returns the
output together with the updated history (the C function mutates
`filterParameters` in place and returns the output). -/
def computeFourthOrder (currentInput : ℚ) (fp : FourthOrderData) :
    ℚ × FourthOrderData :=
  let output : ℚ :=
    _b0 * currentInput +
    _b1 * fp.inputTm1 +
    _b2 * fp.inputTm2 +
    _b3 * fp.inputTm3 +
    _b4 * fp.inputTm4 -
    _a1 * fp.outputTm1 -
    _a2 * fp.outputTm2 -
    _a3 * fp.outputTm3 -
    _a4 * fp.outputTm4
  (output,
   { inputTm4 := fp.inputTm3
     inputTm3 := fp.inputTm2
     inputTm2 := fp.inputTm1
     inputTm1 := currentInput
     outputTm4 := fp.outputTm3
     outputTm3 := fp.outputTm2
     outputTm2 := fp.outputTm1
     outputTm1 := output })

/-- apply_accel_filter: runs the three per-axis filters when
`accel_filter_enabled`, otherwise passes the raw vector through and leaves the
filter bank untouched. -/
def apply_accel_filter (accel_filter_enabled : Bool) (raw : V3) (bank : Bank) :
    V3 × Bank :=
  if accel_filter_enabled then
    let rx := computeFourthOrder raw.x bank.fx
    let ry := computeFourthOrder raw.y bank.fy
    let rz := computeFourthOrder raw.z bank.fz
    (⟨rx.1, ry.1, rz.1⟩, ⟨rx.2, ry.2, rz.2⟩)
  else
    (raw, bank)

/-- Modelled from the spec: `rot_mult` of the CoordinateConversions library
(not under src/) multiplies the gyro and accel vectors by the 3x3 board
rotation matrix. -/
def rot_mult (m : M33) (v : V3) : V3 :=
  ⟨m.r00 * v.x + m.r01 * v.y + m.r02 * v.z,
   m.r10 * v.x + m.r11 * v.y + m.r12 * v.z,
   m.r20 * v.x + m.r21 * v.y + m.r22 * v.z⟩

/-- Modelled from the spec: `CrossProduct` of the CoordinateConversions
library (not under src/): "Error vector = cross(filtered_accel,
filtered_gravity)", the standard vector cross product. -/
def CrossProduct (a b : V3) : V3 :=
  ⟨a.y * b.z - a.z * b.y,
   a.z * b.x - a.x * b.z,
   a.x * b.y - a.y * b.x⟩

/-- updateSensorsCC3D, success path (a sample was received from the queue):
scale raw counts to physical units with the MPU6050 mounting sign convention,
optionally rotate by `R`, subtract the accelerometer bias, add the gyro bias
integral when `bias_correct_gyro`, update the yaw bias integral
unconditionally, and publish the Gyros/Accels objects.  `gyroScale` and
`accelScale` stand for `PIOS_MPU6050_GetScale()` / `GetAccelScale()`
(driver functions outside src/).  Returns the new globals and the two
published objects. -/
def updateSensorsOk (gyroScale accelScale : ℚ) (d : RawSample) (g : Globals) :
    Globals × AccelsData × GyrosData :=
  let gyros0 : V3 :=
    ⟨(d.gyro_x : ℚ) * gyroScale,
     -(d.gyro_y : ℚ) * gyroScale,
     -(d.gyro_z : ℚ) * gyroScale⟩
  let accels0 : V3 :=
    ⟨(d.accel_x : ℚ) * accelScale,
     -(d.accel_y : ℚ) * accelScale,
     -(d.accel_z : ℚ) * accelScale⟩
  let temperature : ℚ := 35 + ((d.temperature : ℚ) + 512) / 340
  let accels : V3 := if g.rotate then rot_mult g.R accels0 else accels0
  let gyros : V3 := if g.rotate then rot_mult g.R gyros0 else gyros0
  let accelsData : AccelsData :=
    ⟨accels.x - (g.accelbias.x : ℚ) * ACCEL_SCALE,
     accels.y - (g.accelbias.y : ℚ) * ACCEL_SCALE,
     accels.z - (g.accelbias.z : ℚ) * ACCEL_SCALE,
     temperature⟩
  let gyrosData : GyrosData :=
    if g.bias_correct_gyro then
      ⟨gyros.x + g.gyro_correct_int.x,
       gyros.y + g.gyro_correct_int.y,
       gyros.z + g.gyro_correct_int.z,
       temperature⟩
    else
      ⟨gyros.x, gyros.y, gyros.z, temperature⟩
  let gci : V3 :=
    { g.gyro_correct_int with
      z := g.gyro_correct_int.z + -gyrosData.z * g.yawBiasRate }
  ({ g with gyro_correct_int := gci }, accelsData, gyrosData)

/-- updateSensorsCC3D: `xQueueReceive` with the bounded SENSOR_PERIOD wait
either yields a sample (`some d`) or times out (`none`, the C `return -1`
path, which touches no state and publishes nothing). -/
def updateSensorsCC3D (gyroScale accelScale : ℚ) (sample : Option RawSample)
    (g : Globals) : Option (Globals × AccelsData × GyrosData) :=
  match sample with
  | none => none
  | some d => some (updateSensorsOk gyroScale accelScale d g)

/-- Elapsed ticks `portMAX_DELAY & (thisSysTime - lastSysTime)` computed in
uint32 arithmetic (the mask is the identity on a 32-bit value). -/
def elapsedTicks (thisT lastT : ℕ) : ℕ :=
  (thisT % 2 ^ 32 + 2 ^ 32 - lastT % 2 ^ 32) % 2 ^ 32

/-- The dT computation of updateAttitude: 1 ms when the tick count has not
advanced, otherwise elapsed ticks converted to seconds
(`/ portTICK_RATE_MS / 1000.0f`; the first division is C integer division). -/
def attDT (thisT lastT : ℕ) : ℚ :=
  if thisT % 2 ^ 32 = lastT % 2 ^ 32 then 0.001
  else ((elapsedTicks thisT lastT / portTICK_RATE_MS : ℕ) : ℚ) / 1000

/-- The body-frame gravity prediction `grot` computed from the current
quaternion (updateAttitude lines 397-399). -/
def attGrot (q : Quat) : V3 :=
  ⟨-(2 * (q.q1 * q.q3 - q.q0 * q.q2)),
   -(2 * (q.q2 * q.q3 + q.q0 * q.q1)),
   -(q.q0 * q.q0 - q.q1 * q.q1 - q.q2 * q.q2 + q.q3 * q.q3)⟩

/-- Everything updateAttitude computes in one cycle: its local variables, the
new values of the globals it writes (q, gyro_correct_int, the two filter
banks, lastSysTime), whether it ran to completion or took one of the two
early `return`s, and the published attitude.  Fields that the aborted paths
never compute are filled with the untouched previous values (for q and
gyro_correct_int, matching the C semantics of an early return) or 0. -/
structure AttTrace where
  dT : ℚ
  accels_filtered : V3
  grot : V3
  grot_filtered : V3
  accel_mag : ℚ
  grot_mag : ℚ
  accel_err : V3
  gyros_corrected : V3
  qpre : Quat
  qmag : ℚ
  q : Quat
  gyro_correct_int : V3
  fpAcc : Bank
  fpGrot : Bank
  lastSysTime : ℕ
  completed : Bool
  attPublished : Option Quat
deriving DecidableEq, Repr

/-- updateAttitude: one fusion cycle.  `accels`/`gyros` are the x,y,z fields
of the AccelsData/GyrosData just produced by updateSensorsCC3D (the C code
aliases the structs as float arrays).  `sqrt` stands for `sqrtf`. -/
def updateAttitude (sqrt : ℚ → ℚ) (thisSysTime : ℕ) (accels gyros : V3)
    (g : Globals) : AttTrace :=
  let dT := attDT thisSysTime g.lastSysTime
  let afp := apply_accel_filter g.accel_filter_enabled accels g.filterParams_acc
  let accels_filtered := afp.1
  let grot := attGrot g.q
  let gfp := apply_accel_filter g.accel_filter_enabled grot g.filterParams_grot
  let grot_filtered := gfp.1
  let accel_err0 := CrossProduct accels_filtered grot_filtered
  let accel_mag := sqrt (accels_filtered.x * accels_filtered.x +
    accels_filtered.y * accels_filtered.y +
    accels_filtered.z * accels_filtered.z)
  if accel_mag < 1 / 1000 then
    { dT := dT, accels_filtered := accels_filtered, grot := grot
      grot_filtered := grot_filtered, accel_mag := accel_mag, grot_mag := 0
      accel_err := accel_err0, gyros_corrected := gyros, qpre := g.q
      qmag := 0, q := g.q, gyro_correct_int := g.gyro_correct_int
      fpAcc := afp.2, fpGrot := gfp.2, lastSysTime := thisSysTime
      completed := false, attPublished := none }
  else
    let grot_mag :=
      if g.accel_filter_enabled then
        sqrt (grot_filtered.x * grot_filtered.x +
          grot_filtered.y * grot_filtered.y +
          grot_filtered.z * grot_filtered.z)
      else 1
    if grot_mag < 1 / 1000 then
      { dT := dT, accels_filtered := accels_filtered, grot := grot
        grot_filtered := grot_filtered, accel_mag := accel_mag
        grot_mag := grot_mag, accel_err := accel_err0
        gyros_corrected := gyros, qpre := g.q, qmag := 0, q := g.q
        gyro_correct_int := g.gyro_correct_int, fpAcc := afp.2
        fpGrot := gfp.2, lastSysTime := thisSysTime, completed := false
        attPublished := none }
    else
      let accel_err : V3 :=
        ⟨accel_err0.x / (accel_mag * grot_mag),
         accel_err0.y / (accel_mag * grot_mag),
         accel_err0.z / (accel_mag * grot_mag)⟩
      let gci : V3 :=
        { g.gyro_correct_int with
          x := g.gyro_correct_int.x + accel_err.x * g.accelKi
          y := g.gyro_correct_int.y + accel_err.y * g.accelKi }
      let gy : V3 :=
        ⟨gyros.x + accel_err.x * g.accelKp / dT,
         gyros.y + accel_err.y * g.accelKp / dT,
         gyros.z + accel_err.z * g.accelKp / dT⟩
      let qdot : Quat :=
        ⟨(-g.q.q1 * gy.x - g.q.q2 * gy.y - g.q.q3 * gy.z) * dT * M_PI / 180 / 2,
         (g.q.q0 * gy.x - g.q.q3 * gy.y + g.q.q2 * gy.z) * dT * M_PI / 180 / 2,
         (g.q.q3 * gy.x + g.q.q0 * gy.y - g.q.q1 * gy.z) * dT * M_PI / 180 / 2,
         (-g.q.q2 * gy.x + g.q.q1 * gy.y + g.q.q0 * gy.z) * dT * M_PI / 180 / 2⟩
      let qstep : Quat :=
        ⟨g.q.q0 + qdot.q0, g.q.q1 + qdot.q1, g.q.q2 + qdot.q2,
         g.q.q3 + qdot.q3⟩
      let qpre : Quat :=
        if qstep.q0 < 0 then ⟨-qstep.q0, -qstep.q1, -qstep.q2, -qstep.q3⟩
        else qstep
      let qmag := sqrt (qpre.q0 * qpre.q0 + qpre.q1 * qpre.q1 +
        qpre.q2 * qpre.q2 + qpre.q3 * qpre.q3)
      let qnorm : Quat :=
        ⟨qpre.q0 / qmag, qpre.q1 / qmag, qpre.q2 / qmag, qpre.q3 / qmag⟩
      let qfin : Quat := if |qmag| < 1 / 1000 then ⟨1, 0, 0, 0⟩ else qnorm
      { dT := dT, accels_filtered := accels_filtered, grot := grot
        grot_filtered := grot_filtered, accel_mag := accel_mag
        grot_mag := grot_mag, accel_err := accel_err, gyros_corrected := gy
        qpre := qpre, qmag := qmag, q := qfin, gyro_correct_int := gci
        fpAcc := afp.2, fpGrot := gfp.2, lastSysTime := thisSysTime
        completed := true, attPublished := some qfin }

/-- The gain-scheduling if-chain at the top of the AttitudeTask loop body:
warm-up window (1000 < tick < 7000), zero-during-arming, or one-shot reload
of the configured gains (guarded by the local `init` flag). -/
def modeSched (settings : AttitudeSettingsData) (armed : FlightArmed)
    (tick : ℕ) (g : Globals) : Globals :=
  if tick % 2 ^ 32 < 7000 ∧ tick % 2 ^ 32 > 1000 then
    { g with accelKp := 1, accelKi := 0.9, yawBiasRate := 0.23
             accel_filter_enabled := false, init := false }
  else if g.zero_during_arming ∧ armed = .Arming then
    { g with accelKp := 1, accelKi := 0.9, yawBiasRate := 0.23
             accel_filter_enabled := false, init := false }
  else if g.init = false then
    { g with accelKi := settings.AccelKi, accelKp := settings.AccelKp
             yawBiasRate := settings.YawBiasRate
             accel_filter_enabled := true, init := true }
  else g

/-- One iteration of the AttitudeTask main loop: gain scheduling, sensor
acquisition, alarm handling and (on success) the fusion step.  Returns the
new globals, the alarm state set this cycle, the published sensor objects and
the published attitude. -/
def attitudeCycle (sqrt : ℚ → ℚ) (gyroScale accelScale : ℚ)
    (settings : AttitudeSettingsData) (armed : FlightArmed) (tick : ℕ)
    (sample : Option RawSample) (g : Globals) :
    Globals × Alarm × Option (AccelsData × GyrosData) × Option Quat :=
  let g1 := modeSched settings armed tick g
  match updateSensorsCC3D gyroScale accelScale sample g1 with
  | none => (g1, .Error, none, none)
  | some (g2, accelsData, gyrosData) =>
    let tr := updateAttitude sqrt tick
      ⟨accelsData.x, accelsData.y, accelsData.z⟩
      ⟨gyrosData.x, gyrosData.y, gyrosData.z⟩ g2
    ({ g2 with q := tr.q, gyro_correct_int := tr.gyro_correct_int
               filterParams_acc := tr.fpAcc, filterParams_grot := tr.fpGrot
               lastSysTime := tr.lastSysTime },
     .Clear, some (accelsData, gyrosData), tr.attPublished)

/-- C integer division truncates toward zero; division by zero is undefined
behaviour, modelled as `none`. -/
def cdiv (a b : ℤ) : Option ℤ :=
  if b = 0 then none else some (Int.tdiv a b)

/-- Truncation toward zero of a float converted to an integer type
(C float-to-int conversion). -/
def truncQ (x : ℚ) : ℤ :=
  if 0 ≤ x then ⌊x⌋ else ⌈x⌉

/-- settingsUpdatedCb: applies an AttitudeSettings snapshot to the globals.
`computeR` stands for `RPY2Quaternion` composed with `Quaternion2R` of the
CoordinateConversions library (not under src/); for all-zero rotation angles
the source uses the identity quaternion, whose rotation matrix is `M33.id`.
Returns `none` when the TrimFlight==LOAD branch divides by a zero
`trim_samples` (undefined behaviour); otherwise returns the new globals and
the settings object published back by `AttitudeSettingsSet` (the LOAD branch
only). -/
def settingsUpdatedCb (computeR : V3 → M33) (s : AttitudeSettingsData)
    (g : Globals) : Option (Globals × Option AttitudeSettingsData) :=
  let g1 : Globals :=
    { g with
      accelKp := s.AccelKp
      accelKi := s.AccelKi
      yawBiasRate := s.YawBiasRate
      gyroGain := s.GyroGain
      zero_during_arming := s.ZeroDuringArming
      bias_correct_gyro := s.BiasCorrectGyro
      accelbias := s.AccelBias
      gyro_correct_int :=
        ⟨(s.GyroBias.x : ℚ) / 100,
         (s.GyroBias.y : ℚ) / 100,
         (s.GyroBias.z : ℚ) / 100⟩ }
  let g2 : Globals :=
    if s.BoardRotation.x = 0 ∧ s.BoardRotation.y = 0 ∧ s.BoardRotation.z = 0
    then { g1 with rotate := false, R := M33.id }
    else { g1 with rotate := true, R := computeR s.BoardRotation }
  match s.TrimFlight with
  | .START =>
    some ({ g2 with trim_accels := ⟨0, 0, 0⟩, trim_samples := 0
                    trim_requested := true }, none)
  | .LOAD =>
    match cdiv g2.trim_accels.x g2.trim_samples,
          cdiv g2.trim_accels.y g2.trim_samples,
          cdiv g2.trim_accels.z g2.trim_samples with
    | some bx, some bY, some bz =>
      some ({ g2 with trim_requested := false },
        some { s with
          AccelBias := ⟨bx, bY, truncQ ((bz : ℚ) + GRAV / ACCEL_SCALE)⟩
          TrimFlight := .NORMAL })
    | _, _, _ => none
  | .NORMAL =>
    some ({ g2 with trim_requested := false }, none)

/-- Written from the spec (section 4.1), for comparison with
`computeFourthOrder`: the 4th-order linear recurrence
`output = Σ b[k]*input[t-k] - Σ a[k]*output[t-k]` with the spec's coefficient
tables `b = [0.00098778675104, -0.00376234890193, 0.00555374469529,
-0.00376234890193, 0.00098778675104]` and `a = [-3.87812973499889,
5.64176257281588, -3.64887595541910, 0.88524773799562]`. -/
def fourthOrderSpecOutput (input : ℚ) (fp : FourthOrderData) : ℚ :=
  (List.zipWith (fun b v => b * v)
      [0.00098778675104, -0.00376234890193, 0.00555374469529,
       -0.00376234890193, 0.00098778675104]
      [input, fp.inputTm1, fp.inputTm2, fp.inputTm3, fp.inputTm4]).sum -
  (List.zipWith (fun a v => a * v)
      [-3.87812973499889, 5.64176257281588, -3.64887595541910,
       0.88524773799562]
      [fp.outputTm1, fp.outputTm2, fp.outputTm3, fp.outputTm4]).sum

/-- Squared euclidean norm of a quaternion, for stating norm properties. -/
def quatNormSq (q : Quat) : ℚ :=
  q.q0 * q.q0 + q.q1 * q.q1 + q.q2 * q.q2 + q.q3 * q.q3

/-- Squared euclidean norm of a 3-vector, for stating magnitude properties. -/
def v3NormSq (v : V3) : ℚ :=
  v.x * v.x + v.y * v.y + v.z * v.z

/-- C6: the IIR filter step returns the 4th-order linear recurrence
`output = Σ b[k]*input[t-k] - Σ a[k]*output[t-k]` with the spec's coefficient
tables, shifts both 4-deep histories by one, and in bypass mode
(`accel_filter_enabled = false`) returns the raw input with the filter state
untouched. -/
theorem fourthOrder_recurrence_shift_bypass (x : ℚ) (fp : FourthOrderData)
    (raw : V3) (bank : Bank) :
    (computeFourthOrder x fp).1 = fourthOrderSpecOutput x fp ∧
    (computeFourthOrder x fp).2 =
      { inputTm1 := x, inputTm2 := fp.inputTm1, inputTm3 := fp.inputTm2
        inputTm4 := fp.inputTm3, outputTm1 := (computeFourthOrder x fp).1
        outputTm2 := fp.outputTm1, outputTm3 := fp.outputTm2
        outputTm4 := fp.outputTm3 } ∧
    apply_accel_filter false raw bank = (raw, bank) := by
  refine ⟨?_, rfl, rfl⟩
  simp only [computeFourthOrder, fourthOrderSpecOutput, List.zipWith,
    List.sum_cons, List.sum_nil, _b0, _b1, _b2, _b3, _b4, _a1, _a2, _a3, _a4]
  norm_num
  ring

/-- C10: every successfully applied settings snapshot overwrites all three
components of the gyro-bias integral with GyroBias/100, regardless of the
previous (learned) value — so a settings change of any unrelated field resets
the learned gyro bias. -/
theorem settings_overwrite_gyro_bias (computeR : V3 → M33)
    (s : AttitudeSettingsData) (g : Globals)
    (out : Globals × Option AttitudeSettingsData)
    (h : settingsUpdatedCb computeR s g = some out) :
    out.1.gyro_correct_int =
      ⟨(s.GyroBias.x : ℚ) / 100, (s.GyroBias.y : ℚ) / 100,
       (s.GyroBias.z : ℚ) / 100⟩ := by
  simp only [settingsUpdatedCb] at h
  split at h
  · simp only [Option.some.injEq] at h
    subst h
    split_ifs <;> rfl
  · split at h
    · simp only [Option.some.injEq] at h
      subst h
      split_ifs <;> rfl
    · exact absurd h (by simp)
  · simp only [Option.some.injEq] at h
    subst h
    split_ifs <;> rfl

/-- A concrete settings snapshot (TrimFlight NORMAL, no rotation). -/
def sC10 : AttitudeSettingsData :=
  { AccelKp := 5, AccelKi := 6, YawBiasRate := 7, GyroGain := 8
    ZeroDuringArming := false, BiasCorrectGyro := true
    AccelBias := ⟨1, 2, 3⟩, GyroBias := ⟨200, -350, 40⟩
    BoardRotation := ⟨0, 0, 0⟩, TrimFlight := .NORMAL }

/-- The globals/publication pair produced by applying `sC10` at boot state. -/
def outC10 : Globals × Option AttitudeSettingsData :=
  ({ initGlobals with
      accelKp := 5, accelKi := 6, yawBiasRate := 7, gyroGain := 8
      zero_during_arming := false, bias_correct_gyro := true
      accelbias := ⟨1, 2, 3⟩
      gyro_correct_int := ⟨(200 : ℚ) / 100, ((-350 : ℤ) : ℚ) / 100, (40 : ℚ) / 100⟩
      rotate := false, R := M33.id, trim_requested := false }, none)

/-- Witness for C10 at a concrete snapshot: the learned bias (1,1,1) in the
boot state is discarded and replaced by GyroBias/100 = (2, -3.5, 0.4). -/
theorem settings_overwrite_gyro_bias_witness :
    settingsUpdatedCb (fun _ => M33.id) sC10
        { initGlobals with gyro_correct_int := ⟨1, 1, 1⟩ } = some outC10 ∧
    outC10.1.gyro_correct_int = ⟨2, -7/2, 2/5⟩ := by
  have h : settingsUpdatedCb (fun _ => M33.id) sC10
      { initGlobals with gyro_correct_int := ⟨1, 1, 1⟩ } = some outC10 := by
    simp only [settingsUpdatedCb, sC10, outC10, initGlobals, M33.id]
    norm_num
  refine ⟨h, ?_⟩
  rw [settings_overwrite_gyro_bias _ _ _ _ h]
  norm_num [sC10]

/-- C9: dT is the tick-count difference converted to seconds, with a nominal
1 ms substituted when the clock has not advanced, and is therefore always
strictly positive — the division by dT in the proportional correction is
never a division by zero. -/
theorem updateAttitude_dT_positive (sqrt : ℚ → ℚ) (t : ℕ) (accels gyros : V3)
    (g : Globals) :
    ((updateAttitude sqrt t accels gyros g).dT = attDT t g.lastSysTime) ∧
    (t % 2 ^ 32 = g.lastSysTime % 2 ^ 32 → attDT t g.lastSysTime = 1 / 1000) ∧
    (t % 2 ^ 32 ≠ g.lastSysTime % 2 ^ 32 →
      attDT t g.lastSysTime = ((elapsedTicks t g.lastSysTime : ℕ) : ℚ) / 1000) ∧
    0 < attDT t g.lastSysTime := by
  refine ⟨?_, ?_, ?_, ?_⟩
  · simp only [updateAttitude]
    split_ifs <;> rfl
  · intro h
    simp only [attDT, if_pos h]
    norm_num
  · intro h
    simp only [attDT, if_neg h, portTICK_RATE_MS, Nat.div_one]
  · by_cases h : t % 2 ^ 32 = g.lastSysTime % 2 ^ 32
    · simp only [attDT, if_pos h]
      norm_num
    · simp only [attDT, if_neg h, portTICK_RATE_MS, Nat.div_one]
      have hne : elapsedTicks t g.lastSysTime ≠ 0 := by
        simp only [elapsedTicks]
        omega
      have hpos : 0 < elapsedTicks t g.lastSysTime := Nat.pos_of_ne_zero hne
      positivity

/-- Witness for C9: ticks 4 (current) and 0 (previous) give dT = 4 ms > 0. -/
theorem updateAttitude_dT_positive_witness :
    attDT 4 initGlobals.lastSysTime = (4 : ℚ) / 1000 ∧
    0 < attDT 4 initGlobals.lastSysTime := by
  have h := updateAttitude_dT_positive (fun _ => 0) 4 ⟨0, 0, 0⟩ ⟨0, 0, 0⟩
    initGlobals
  refine ⟨?_, h.2.2.2⟩
  rw [h.2.2.1 (by simp [initGlobals])]
  simp [elapsedTicks, initGlobals]

/-- C7: the yaw component of the gyro-bias integral is updated by
`-gz * yawBiasRate` (gz the conditioned, published gyro z) on every
successful sensor-conditioning cycle, unconditionally — whatever the
`bias_correct_gyro` flag — while the x and y components are untouched there;
the fusion step updates only x and y (by `error * Ki`) and never the yaw
component. -/
theorem yaw_bias_integral_update (gyroScale accelScale : ℚ) (d : RawSample)
    (g : Globals) (sqrt : ℚ → ℚ) (t : ℕ) (accels gyros : V3) (g2 : Globals) :
    ((updateSensorsOk gyroScale accelScale d g).1.gyro_correct_int.z =
      g.gyro_correct_int.z +
        -(updateSensorsOk gyroScale accelScale d g).2.2.z * g.yawBiasRate) ∧
    ((updateSensorsOk gyroScale accelScale d g).1.gyro_correct_int.x =
      g.gyro_correct_int.x) ∧
    ((updateSensorsOk gyroScale accelScale d g).1.gyro_correct_int.y =
      g.gyro_correct_int.y) ∧
    ((updateAttitude sqrt t accels gyros g2).gyro_correct_int.z =
      g2.gyro_correct_int.z) ∧
    ((updateAttitude sqrt t accels gyros g2).completed = true →
      (updateAttitude sqrt t accels gyros g2).gyro_correct_int.x =
        g2.gyro_correct_int.x +
          (updateAttitude sqrt t accels gyros g2).accel_err.x * g2.accelKi ∧
      (updateAttitude sqrt t accels gyros g2).gyro_correct_int.y =
        g2.gyro_correct_int.y +
          (updateAttitude sqrt t accels gyros g2).accel_err.y * g2.accelKi) := by
  refine ⟨?_, ?_, ?_, ?_, ?_⟩
  · simp only [updateSensorsOk]
  · simp only [updateSensorsOk]
  · simp only [updateSensorsOk]
  · simp only [updateAttitude]
    split_ifs <;> rfl
  · simp only [updateAttitude]
    split_ifs <;> simp

/-- A concrete raw sample for the C7 witness. -/
def dC7 : RawSample := ⟨10, 20, 30, 1, 2, 3, 0⟩

/-- Boot globals with a nonzero learned bias and yawBiasRate 1/2. -/
def gC7 : Globals :=
  { initGlobals with gyro_correct_int := ⟨1, 2, 4⟩, yawBiasRate := 1/2 }

/-- Boot globals for the fusion half of the C7 witness. -/
def gC7b : Globals :=
  { initGlobals with gyro_correct_int := ⟨1, 2, 3⟩, accelKi := 6, accelKp := 2 }

/-- A square root valid at the points queried by the C7/C3 witnesses. -/
def sqrtOne : ℚ → ℚ := fun x => if x = 1 then 1 else 0

/-- Witness for C7: at the concrete sample `dC7` the conditioned gyro z is 1,
so the yaw integral moves from 4 to 4 - 1*(1/2) = 7/2 while x stays 1; and a
completed fusion cycle leaves the yaw integral at 3 and updates x by
error*Ki. -/
theorem yaw_bias_integral_update_witness :
    (updateSensorsOk (1/10) (1/10) dC7 gC7).1.gyro_correct_int.z = 7/2 ∧
    (updateSensorsOk (1/10) (1/10) dC7 gC7).1.gyro_correct_int.x = 1 ∧
    (updateAttitude sqrtOne 4 ⟨0, 0, -1⟩ ⟨0, 0, 0⟩ gC7b).gyro_correct_int.z = 3 ∧
    (updateAttitude sqrtOne 4 ⟨0, 0, -1⟩ ⟨0, 0, 0⟩ gC7b).gyro_correct_int.x =
      gC7b.gyro_correct_int.x +
        (updateAttitude sqrtOne 4 ⟨0, 0, -1⟩ ⟨0, 0, 0⟩ gC7b).accel_err.x *
          gC7b.accelKi := by
  have h := yaw_bias_integral_update (1/10) (1/10) dC7 gC7 sqrtOne 4
    ⟨0, 0, -1⟩ ⟨0, 0, 0⟩ gC7b
  refine ⟨?_, ?_, ?_, (h.2.2.2.2 ?_).1⟩
  · rw [h.1]
    norm_num [updateSensorsOk, gC7, dC7, initGlobals]
  · rw [h.2.1]
    norm_num [gC7, initGlobals]
  · rw [h.2.2.2.1]
    norm_num [gC7b, initGlobals]
  · norm_num [updateAttitude, apply_accel_filter, attGrot, CrossProduct,
      sqrtOne, gC7b, initGlobals, attDT]

/-- C5: a cycle whose bounded sensor wait times out gets a failure code from
updateSensorsCC3D with nothing mutated or published; the task skips fusion
(q, the gyro-bias integral, both filter banks and the fusion timestamp are
unchanged), publishes nothing and raises the Error alarm — and any cycle
that does receive a sample ends with the alarm cleared. -/
theorem sensor_timeout_cycle (sqrt : ℚ → ℚ) (gyroScale accelScale : ℚ)
    (settings : AttitudeSettingsData) (armed : FlightArmed) (t : ℕ)
    (g : Globals) (d : RawSample) :
    (updateSensorsCC3D gyroScale accelScale none g = none) ∧
    (attitudeCycle sqrt gyroScale accelScale settings armed t none g).1.q =
      g.q ∧
    (attitudeCycle sqrt gyroScale accelScale settings armed t none
      g).1.gyro_correct_int = g.gyro_correct_int ∧
    (attitudeCycle sqrt gyroScale accelScale settings armed t none
      g).1.filterParams_acc = g.filterParams_acc ∧
    (attitudeCycle sqrt gyroScale accelScale settings armed t none
      g).1.filterParams_grot = g.filterParams_grot ∧
    (attitudeCycle sqrt gyroScale accelScale settings armed t none
      g).1.lastSysTime = g.lastSysTime ∧
    (attitudeCycle sqrt gyroScale accelScale settings armed t none g).2.1 =
      .Error ∧
    (attitudeCycle sqrt gyroScale accelScale settings armed t none g).2.2.1 =
      none ∧
    (attitudeCycle sqrt gyroScale accelScale settings armed t none g).2.2.2 =
      none ∧
    (attitudeCycle sqrt gyroScale accelScale settings armed t (some d)
      g).2.1 = .Clear := by
  refine ⟨rfl, ?_, ?_, ?_, ?_, ?_, ?_, ?_, ?_, ?_⟩ <;>
    · simp only [attitudeCycle, updateSensorsCC3D, modeSched]
      try split_ifs <;> rfl

/-- C1 (documenting the defect): the sensor-conditioning path never touches
the trim accumulator — no code in the module ever increments `trim_samples`
or adds a sample to `trim_accels` (the Start command only zeroes them and
`MAX_TRIM_FLIGHT_SAMPLES`/`trim_requested` are never read back) — and the
TrimFlight=LOAD branch divides the accumulator by `trim_samples` with no
zero guard, so after a Start (or from boot, where `trim_samples = 0`) a Load
command is an integer division by zero, not the claimed no-op. -/
theorem trim_never_accumulates_and_load_faults (gyroScale accelScale : ℚ)
    (d : RawSample) (g gS gL : Globals) (cR : V3 → M33)
    (sS sL : AttitudeSettingsData)
    (hS : sS.TrimFlight = .START) (hL : sL.TrimFlight = .LOAD)
    (hz : gL.trim_samples = 0) :
    ((updateSensorsOk gyroScale accelScale d g).1.trim_accels =
      g.trim_accels) ∧
    ((updateSensorsOk gyroScale accelScale d g).1.trim_samples =
      g.trim_samples) ∧
    ((settingsUpdatedCb cR sS gS).map
        (fun o => (o.1.trim_samples, o.1.trim_accels, o.1.trim_requested)) =
      some (0, ⟨0, 0, 0⟩, true)) ∧
    (settingsUpdatedCb cR sL gL = none) := by
  refine ⟨rfl, rfl, ?_, ?_⟩
  · simp only [settingsUpdatedCb, hS]
    split_ifs <;> rfl
  · simp only [settingsUpdatedCb, hL]
    split_ifs <;> simp [cdiv, hz]

/-- Witness for C1: concretely, a conditioned sample leaves the trim
accumulator untouched, a Start command leaves `trim_samples` at 0, and a
Load command from that state is the division-by-zero fault. -/
theorem trim_never_accumulates_and_load_faults_witness :
    ((updateSensorsOk (1/10) (1/10) dC7 gC7).1.trim_accels =
      gC7.trim_accels) ∧
    ((settingsUpdatedCb (fun _ => M33.id) { sC10 with TrimFlight := .START }
        initGlobals).map
        (fun o => (o.1.trim_samples, o.1.trim_accels, o.1.trim_requested)) =
      some (0, ⟨0, 0, 0⟩, true)) ∧
    (settingsUpdatedCb (fun _ => M33.id) { sC10 with TrimFlight := .LOAD }
        initGlobals = none) := by
  have h := trim_never_accumulates_and_load_faults (1/10) (1/10) dC7 gC7
    initGlobals initGlobals (fun _ => M33.id)
    { sC10 with TrimFlight := .START } { sC10 with TrimFlight := .LOAD }
    rfl rfl rfl
  exact ⟨h.1, h.2.2.1, h.2.2.2⟩

/-- C8 (amended): cycles whose elapsed tick count lies strictly between 1000
and 7000 force the warm-up gains (Kp=1, Ki=0.9, yawBiasRate=0.23, filter
disabled) regardless of the configured gains; outside that window and not
arm-zeroing, the configured tuned gains are loaded with the filter enabled on
the first such cycle (`init = false`) and the gains are left untouched on
later ones (`init = true`). -/
theorem modeSched_gain_schedule (settings : AttitudeSettingsData)
    (armed : FlightArmed) (t : ℕ) (g : Globals) :
    (1000 < t % 2 ^ 32 → t % 2 ^ 32 < 7000 →
      modeSched settings armed t g =
        { g with accelKp := 1, accelKi := 0.9, yawBiasRate := 0.23
                 accel_filter_enabled := false, init := false }) ∧
    (¬(1000 < t % 2 ^ 32 ∧ t % 2 ^ 32 < 7000) →
      ¬(g.zero_during_arming = true ∧ armed = .Arming) →
      g.init = false →
      modeSched settings armed t g =
        { g with accelKi := settings.AccelKi, accelKp := settings.AccelKp
                 yawBiasRate := settings.YawBiasRate
                 accel_filter_enabled := true, init := true }) ∧
    (¬(1000 < t % 2 ^ 32 ∧ t % 2 ^ 32 < 7000) →
      ¬(g.zero_during_arming = true ∧ armed = .Arming) →
      g.init = true →
      modeSched settings armed t g = g) := by
  refine ⟨?_, ?_, ?_⟩
  · intro hlo hhi
    simp only [modeSched]
    rw [if_pos ⟨hhi, hlo⟩]
  · intro hw hz hinit
    simp only [modeSched]
    rw [if_neg (fun hc => hw ⟨hc.2, hc.1⟩), if_neg hz, if_pos hinit]
  · intro hw hz hinit
    simp only [modeSched]
    rw [if_neg (fun hc => hw ⟨hc.2, hc.1⟩), if_neg hz,
      if_neg (by simp [hinit])]

/-- Counterexample for C8 as stated: at tick 500 — inside the first second
after boot, before the warm-up window's exclusive lower bound of 1000 ticks —
the scheduler's first cycle loads the configured tuned gains (5, 6, 7) with
the filter enabled, i.e. the Normal configuration, not the claimed WarmUp
forced gains (Kp=1, filter disabled). -/
theorem modeSched_initial_not_warmup :
    (modeSched sC10 .Disarmed 500 initGlobals).accelKp = 5 ∧
    (modeSched sC10 .Disarmed 500 initGlobals).accelKi = 6 ∧
    (modeSched sC10 .Disarmed 500 initGlobals).yawBiasRate = 7 ∧
    (modeSched sC10 .Disarmed 500 initGlobals).accel_filter_enabled = true ∧
    ¬((modeSched sC10 .Disarmed 500 initGlobals).accelKp = 1 ∧
      (modeSched sC10 .Disarmed 500 initGlobals).accel_filter_enabled =
        false) := by
  norm_num [modeSched, sC10, initGlobals]

/-- Witness for C8 (amended): tick 2000 forces the warm-up gains over the
configured (5,6,7); tick 8000 loads the configured gains with the filter
enabled when `init = false` and leaves the state untouched when
`init = true`. -/
theorem modeSched_gain_schedule_witness :
    modeSched sC10 .Disarmed 2000 initGlobals =
      { initGlobals with accelKp := 1, accelKi := 0.9, yawBiasRate := 0.23
                         accel_filter_enabled := false, init := false } ∧
    modeSched sC10 .Disarmed 8000 initGlobals =
      { initGlobals with accelKi := 6, accelKp := 5, yawBiasRate := 7
                         accel_filter_enabled := true, init := true } ∧
    modeSched sC10 .Disarmed 8000 { initGlobals with init := true } =
      { initGlobals with init := true } := by
  have h1 := (modeSched_gain_schedule sC10 .Disarmed 2000 initGlobals).1
    (by norm_num) (by norm_num)
  have h2 := (modeSched_gain_schedule sC10 .Disarmed 8000 initGlobals).2.1
    (by norm_num) (by simp [initGlobals]) rfl
  have h3 := (modeSched_gain_schedule sC10 .Disarmed 8000
    { initGlobals with init := true }).2.2
    (by norm_num) (by simp [initGlobals]) rfl
  refine ⟨h1, ?_, h3⟩
  rw [h2]
  simp [sC10]

/-- C2 (amended): the filtered accel magnitude is computed and checked every
fusion cycle, and when the accel filter is enabled the filtered
predicted-gravity magnitude is computed and checked too; either check being
below 1e-3 aborts the cycle with q and the gyro-bias integral unchanged.
When the filter is disabled the predicted-gravity magnitude is not computed —
it is taken as 1.0 — so only the accel check can abort the cycle. -/
theorem degeneracy_abort_conditions (sqrt : ℚ → ℚ) (t : ℕ)
    (accels gyros : V3) (g : Globals) :
    (sqrt (v3NormSq (apply_accel_filter g.accel_filter_enabled accels
        g.filterParams_acc).1) < 1 / 1000 →
      (updateAttitude sqrt t accels gyros g).completed = false ∧
      (updateAttitude sqrt t accels gyros g).q = g.q ∧
      (updateAttitude sqrt t accels gyros g).gyro_correct_int =
        g.gyro_correct_int) ∧
    (g.accel_filter_enabled = true →
      sqrt (v3NormSq (apply_accel_filter g.accel_filter_enabled (attGrot g.q)
        g.filterParams_grot).1) < 1 / 1000 →
      (updateAttitude sqrt t accels gyros g).completed = false ∧
      (updateAttitude sqrt t accels gyros g).q = g.q ∧
      (updateAttitude sqrt t accels gyros g).gyro_correct_int =
        g.gyro_correct_int) ∧
    (g.accel_filter_enabled = false →
      ¬(sqrt (v3NormSq (apply_accel_filter g.accel_filter_enabled accels
        g.filterParams_acc).1) < 1 / 1000) →
      (updateAttitude sqrt t accels gyros g).completed = true) := by
  refine ⟨?_, ?_, ?_⟩
  · intro h
    simp only [v3NormSq] at h
    simp only [updateAttitude]
    rw [if_pos h]
    exact ⟨rfl, rfl, rfl⟩
  · intro hen h
    simp only [v3NormSq, hen] at h
    simp only [updateAttitude, hen]
    split_ifs with h1 <;> exact ⟨rfl, rfl, rfl⟩
  · intro hdis hna
    simp only [v3NormSq, hdis] at hna
    simp only [updateAttitude, hdis]
    rw [if_neg hna]
    norm_num

/-- A square root valid at the points the C2 counterexample queries
(sqrt 1 = 1 and sqrt(10^-6) = 10^-3). -/
def sqrtC2 : ℚ → ℚ :=
  fun x => if x = 1 then 1 else if x = 1 / 1000000 then 1 / 1000 else 0

/-- Boot globals with the quaternion scaled down to (1/1000, 0, 0, 0). -/
def gC2 : Globals := { initGlobals with q := ⟨1 / 1000, 0, 0, 0⟩ }

/-- Counterexample for C2 as stated: with the accel filter disabled, the
filtered predicted-gravity vector is (0, 0, -10^-6) — squared magnitude
10^-12, i.e. magnitude 10^-6 < 1e-3 — yet the cycle does NOT abort: it runs
to completion and mutates q (from (1/1000,0,0,0) to (1,0,0,0)), because the
code only computes the predicted-gravity magnitude when the filter is
enabled and otherwise substitutes 1.0. -/
theorem degeneracy_check_skipped_counterexample :
    (updateAttitude sqrtC2 4 ⟨0, 0, -1⟩ ⟨0, 0, 0⟩ gC2).grot_filtered =
      ⟨0, 0, -(1 / 1000000)⟩ ∧
    v3NormSq (updateAttitude sqrtC2 4 ⟨0, 0, -1⟩ ⟨0, 0, 0⟩
      gC2).grot_filtered < (1 / 1000) * (1 / 1000) ∧
    (updateAttitude sqrtC2 4 ⟨0, 0, -1⟩ ⟨0, 0, 0⟩ gC2).completed = true ∧
    (updateAttitude sqrtC2 4 ⟨0, 0, -1⟩ ⟨0, 0, 0⟩ gC2).q = ⟨1, 0, 0, 0⟩ ∧
    (updateAttitude sqrtC2 4 ⟨0, 0, -1⟩ ⟨0, 0, 0⟩ gC2).q ≠ gC2.q := by
  norm_num [updateAttitude, apply_accel_filter, attGrot, CrossProduct,
    sqrtC2, gC2, initGlobals, attDT, v3NormSq]

/-- A square root that is zero everywhere (valid at 0, the only point the
first two parts of the C2 witness query). -/
def zeroSqrt : ℚ → ℚ := fun _ => 0

/-- Witness for C2 (amended): a tiny filtered accel magnitude aborts the
cycle with or without the filter, and with the filter disabled a healthy
accel magnitude always completes the cycle. -/
theorem degeneracy_abort_conditions_witness :
    (updateAttitude zeroSqrt 4 ⟨0, 0, -1⟩ ⟨0, 0, 0⟩ initGlobals).completed =
      false ∧
    (updateAttitude zeroSqrt 4 ⟨0, 0, -1⟩ ⟨0, 0, 0⟩
      { initGlobals with accel_filter_enabled := true }).completed = false ∧
    (updateAttitude sqrtOne 4 ⟨0, 0, -1⟩ ⟨0, 0, 0⟩ initGlobals).completed =
      true := by
  refine
    ⟨((degeneracy_abort_conditions zeroSqrt 4 ⟨0, 0, -1⟩ ⟨0, 0, 0⟩
        initGlobals).1 ?_).1,
     ((degeneracy_abort_conditions zeroSqrt 4 ⟨0, 0, -1⟩ ⟨0, 0, 0⟩
        { initGlobals with accel_filter_enabled := true }).2.1 rfl ?_).1,
     (degeneracy_abort_conditions sqrtOne 4 ⟨0, 0, -1⟩ ⟨0, 0, 0⟩
        initGlobals).2.2 rfl ?_⟩
  · norm_num [zeroSqrt]
  · norm_num [zeroSqrt]
  · norm_num [sqrtOne, v3NormSq, apply_accel_filter, initGlobals]
/-- Renormalisation algebra: dividing a quaternion by an exact square root of
its squared norm yields a unit quaternion. -/
theorem normalizeStep_unit (a b c d m : ℚ)
    (hm : m * m = a * a + b * b + c * c + d * d) (hm0 : 0 ≤ m)
    (hr : ¬|m| < 1 / 1000) :
    quatNormSq ⟨a / m, b / m, c / m, d / m⟩ = 1 := by
  have hne : m ≠ 0 := by
    intro h0
    rw [h0, abs_zero] at hr
    norm_num at hr
  simp only [quatNormSq]
  field_simp
  linarith [hm]

/-- C3: a completed fusion cycle ends with the quaternion exactly normalised
(unit norm, hence within 1e-4 of 1) and with a non-negative scalar
component, provided the square root returned an exact non-negative root of
the squared norm it was applied to. -/
theorem fusion_output_normalized (sqrt : ℚ → ℚ) (t : ℕ) (accels gyros : V3)
    (g : Globals)
    (hc : (updateAttitude sqrt t accels gyros g).completed = true)
    (hm : (updateAttitude sqrt t accels gyros g).qmag *
        (updateAttitude sqrt t accels gyros g).qmag =
      quatNormSq (updateAttitude sqrt t accels gyros g).qpre)
    (hm0 : 0 ≤ (updateAttitude sqrt t accels gyros g).qmag) :
    quatNormSq (updateAttitude sqrt t accels gyros g).q = 1 ∧
    0 ≤ (updateAttitude sqrt t accels gyros g).q.q0 := by
  simp only [updateAttitude] at hc hm hm0 ⊢
  split_ifs at hc hm hm0 ⊢
  all_goals dsimp only at *
  all_goals try (constructor <;> (norm_num [quatNormSq]; done))
  all_goals
    simp only [quatNormSq] at hm
    refine ⟨normalizeStep_unit _ _ _ _ _ hm hm0 (by assumption),
      div_nonneg ?_ hm0⟩
  all_goals try exact not_lt.mp (by assumption)
  all_goals rw [neg_nonneg]
  all_goals exact le_of_lt (by assumption)
/-- Witness for C3: a concrete completed cycle (identity q, gravity accel,
zero gyro, warm-up bypass mode) ends with an exactly unit quaternion. -/
theorem fusion_output_normalized_witness :
    quatNormSq (updateAttitude sqrtOne 4 ⟨0, 0, -1⟩ ⟨0, 0, 0⟩ initGlobals).q =
      1 ∧
    0 ≤ (updateAttitude sqrtOne 4 ⟨0, 0, -1⟩ ⟨0, 0, 0⟩ initGlobals).q.q0 :=
  fusion_output_normalized sqrtOne 4 ⟨0, 0, -1⟩ ⟨0, 0, 0⟩ initGlobals
    (by norm_num [updateAttitude, apply_accel_filter, attGrot, CrossProduct,
      sqrtOne, initGlobals, attDT])
    (by norm_num [updateAttitude, apply_accel_filter, attGrot, CrossProduct,
      sqrtOne, initGlobals, attDT, quatNormSq, M_PI])
    (by norm_num [updateAttitude, apply_accel_filter, attGrot, CrossProduct,
      sqrtOne, initGlobals, attDT, M_PI])

/-- C4 (amended): whenever the fusion cycle runs to completion and the
computed quaternion norm after integration is below 1e-3 in absolute value,
q is reset to the identity quaternion. -/
theorem quat_degenerate_reset (sqrt : ℚ → ℚ) (t : ℕ) (accels gyros : V3)
    (g : Globals)
    (hc : (updateAttitude sqrt t accels gyros g).completed = true)
    (hq : |(updateAttitude sqrt t accels gyros g).qmag| < 1 / 1000) :
    (updateAttitude sqrt t accels gyros g).q = ⟨1, 0, 0, 0⟩ := by
  simp only [updateAttitude] at hc hq ⊢
  split_ifs at hc hq ⊢
  all_goals dsimp only at *

/-- Boot globals with the quaternion manually zeroed (bypass mode). -/
def gC4 : Globals := { initGlobals with q := ⟨0, 0, 0, 0⟩ }

/-- Witness for C4 (amended), which is also the claim's recovery scenario in
the configuration where it does hold: q manually set to all-zero, accel
filter disabled, one fusion cycle on a normal gravity sample resets q to the
identity. -/
theorem quat_degenerate_reset_witness :
    (updateAttitude sqrtOne 4 ⟨0, 0, -1⟩ ⟨0, 0, 0⟩ gC4).q = ⟨1, 0, 0, 0⟩ :=
  quat_degenerate_reset sqrtOne 4 ⟨0, 0, -1⟩ ⟨0, 0, 0⟩ gC4
    (by norm_num [updateAttitude, apply_accel_filter, attGrot, CrossProduct,
      sqrtOne, gC4, initGlobals, attDT])
    (by norm_num [updateAttitude, apply_accel_filter, attGrot, CrossProduct,
      sqrtOne, gC4, initGlobals, attDT, M_PI])

/-- A square root valid at the two points the C4 counterexample queries:
sqrt 0 = 0 and the square root of the squared filtered-gravity magnitude. -/
def sqrtC4 : ℚ → ℚ :=
  fun x =>
    if x = 0 then 0
    else
      if x = 0.00098778675104 * 9.81 * (0.00098778675104 * 9.81) then
        0.00098778675104 * 9.81
      else 0

/-- Boot globals with q zeroed and the accel filter enabled (cold filter
state, as after a first cycle outside the warm-up window). -/
def gC4e : Globals :=
  { initGlobals with q := ⟨0, 0, 0, 0⟩, accel_filter_enabled := true }

/-- Counterexample for C4 as stated: with the accel filter enabled and cold
filter state, setting q to all-zero and running one fusion cycle on a normal
gravity sample does NOT reset q to identity — the cycle aborts at the
degenerate-geometry check (the filtered prediction of gravity from q = 0 is
the zero vector), leaving q at all-zero. -/
theorem allzero_q_not_reset_counterexample :
    (updateAttitude sqrtC4 4 ⟨0, 0, -9.81⟩ ⟨0, 0, 0⟩ gC4e).q =
      ⟨0, 0, 0, 0⟩ ∧
    (updateAttitude sqrtC4 4 ⟨0, 0, -9.81⟩ ⟨0, 0, 0⟩ gC4e).q ≠
      ⟨1, 0, 0, 0⟩ ∧
    (updateAttitude sqrtC4 4 ⟨0, 0, -9.81⟩ ⟨0, 0, 0⟩ gC4e).completed =
      false := by
  norm_num [updateAttitude, apply_accel_filter, computeFourthOrder, attGrot,
    CrossProduct, sqrtC4, gC4e, initGlobals, attDT, _b0, _b1, _b2, _b3, _b4,
    _a1, _a2, _a3, _a4, FourthOrderData.zero, Bank.zero]
